import Mathlib

/-!
Verification of the jiraAutomation services.

The repository drives an external Jira tracker.  We model the tracker as an
explicit state (`Tracker`): an association list of issues plus a description
of which transitions the tracker offers and which remote calls it rejects
with a provider error (`JIRAError`, carried here as its `text` message).
The wrapper methods of `services/jira_client.py` and the two workflows
(`services/task_processor.py`, `services/subtask_creator.py`) are embedded as
state-passing functions `Tracker → Tracker × Except Err α`; a raised
`JIRAError` is an `Except.error` and, as in Python, mutations performed
before the raise persist in the returned state.
-/

namespace JiraAutomation

/-- Text of a provider error (`JIRAError.text` / `str(e)`). -/
abbrev Err := String

/-- The request-scoped view of an issue that the workflows read:
`issue.key`, `issue.fields.status.name`, `issue.fields.assignee.name`. -/
structure Issue where
  key : String
  status : String
  assignee : Option String
  deriving Repr, DecidableEq

/-- Server-side record of one issue in the tracker model. -/
structure IssueFields where
  status : String
  assignee : Option String
  worklogAuthors : List String
  subtaskKeys : List String
  projectId : String
  summary : String
  deriving Repr, DecidableEq

/-- One entry of `jira.issue_types()`: a name and an opaque id. -/
structure IssueTypeInfo where
  name : String
  id : String
  deriving Repr, DecidableEq

/-- Model of the external Jira server.  `issues` maps keys to records;
`offered` lists the transition edges the tracker offers, as
(source status, target status name) pairs; the `fail*` fields inject
provider errors: a lookup hit means the corresponding remote call raises
a `JIRAError` with the stored text.  `currentUsername` is the
authenticated user (`jira.myself()`); `nextId` feeds the key generator
for created issues. -/
structure Tracker where
  issues : List (String × IssueFields)
  offered : List (String × String)
  failExec : List ((String × String) × Err)
  failWorklogList : List (String × Err)
  failWorklogAdd : List (String × Err)
  failCreate : List (String × Err)
  failAssign : List (String × Err)
  issueTypes : List IssueTypeInfo
  currentUsername : String
  nextId : Nat
  deriving Repr, DecidableEq

/-- Replace the record stored under `key` (pointwise update of the
association list). -/
def updateIssue (t : Tracker) (key : String) (f : IssueFields → IssueFields) : Tracker :=
  { t with issues := t.issues.map (fun p => if p.1 == key then (p.1, f p.2) else p) }

/-- The tracker-side status of an issue, if the issue exists. -/
def statusOf (t : Tracker) (key : String) : Option String :=
  (t.issues.lookup key).map (fun f => f.status)

/-- `JiraClient.get_current_user`: the authenticated user's username. -/
def getCurrentUser (t : Tracker) : String := t.currentUsername

/-- `JiraClient.get_issue`: fetch an issue by key; raises if it does not
exist. -/
def getIssue (t : Tracker) (key : String) : Except Err Issue :=
  match t.issues.lookup key with
  | some f => .ok ⟨key, f.status, f.assignee⟩
  | none => .error ("Issue Does Not Exist: " ++ key)

/-- `JiraClient.get_subtasks`: the sub-task keys listed on the parent
(`parent.fields.subtasks`). -/
def getSubtasks (t : Tracker) (key : String) : Except Err (List String) :=
  match t.issues.lookup key with
  | some f => .ok f.subtaskKeys
  | none => .error ("Issue Does Not Exist: " ++ key)

/-- `JiraClient.transition_issue`: list the transitions offered from the
issue's current (server-side) status; if one targets `transitionName`,
execute it — the tracker then sets the issue's status to that target name —
and return `true`; otherwise return `false`.  Executing may raise. -/
def transitionIssue (t : Tracker) (issue : Issue) (transitionName : String) :
    Tracker × Except Err Bool :=
  match t.issues.lookup issue.key with
  | none => (t, .error ("Issue Does Not Exist: " ++ issue.key))
  | some f =>
    let targets := (t.offered.filter (fun p => p.1 == f.status)).map (fun p => p.2)
    if targets.contains transitionName then
      match t.failExec.lookup (issue.key, transitionName) with
      | some e => (t, .error e)
      | none =>
        (updateIssue t issue.key (fun g => { g with status := transitionName }), .ok true)
    else (t, .ok false)

/-- `JiraClient.add_worklog`: append a worklog authored by the current
user.  May raise. -/
def addWorklog (t : Tracker) (issue : Issue) (_timeSpent : String) :
    Tracker × Except Err Bool :=
  match t.failWorklogAdd.lookup issue.key with
  | some e => (t, .error e)
  | none =>
    match t.issues.lookup issue.key with
    | none => (t, .error ("Issue Does Not Exist: " ++ issue.key))
    | some _ =>
      (updateIssue t issue.key
        (fun g => { g with worklogAuthors := g.worklogAuthors ++ [t.currentUsername] }),
       .ok true)

/-- `JiraClient.get_worklogs`: the authors of the worklogs on an issue.
May raise. -/
def getWorklogs (t : Tracker) (issue : Issue) : Except Err (List String) :=
  match t.failWorklogList.lookup issue.key with
  | some e => .error e
  | none =>
    match t.issues.lookup issue.key with
    | some f => .ok f.worklogAuthors
    | none => .error ("Issue Does Not Exist: " ++ issue.key)

/-- Key assigned by the tracker to a newly created issue. -/
def genKey (n : Nat) : String := "SUB-" ++ toString n

/-- The creation payload built by `SubtaskCreator._create_single_subtask`
(project id, parent key, summary, description, issue-type id, original
estimate, one custom field). -/
structure SubtaskFields where
  projectId : String
  parentKey : String
  summary : String
  description : String
  issueTypeId : String
  originalEstimate : String
  customFieldId : String
  customFieldValue : String
  deriving Repr, DecidableEq

/-- `JiraClient.create_subtask`: create a new issue from the payload.  The
tracker stores it under a fresh key with status `"Open"` and no assignee.
May raise (injection keyed by the payload's summary). -/
def createSubtask (t : Tracker) (_parentKey : String) (fields : SubtaskFields) :
    Tracker × Except Err Issue :=
  match t.failCreate.lookup fields.summary with
  | some e => (t, .error e)
  | none =>
    let key := genKey t.nextId
    ({ t with
        issues := t.issues ++ [(key,
          { status := "Open", assignee := none, worklogAuthors := [],
            subtaskKeys := [], projectId := fields.projectId, summary := fields.summary })],
        nextId := t.nextId + 1 },
     .ok ⟨key, "Open", none⟩)

/-- `JiraClient.assign_issue`: set the issue's assignee.  May raise. -/
def assignIssue (t : Tracker) (issue : Issue) (username : String) :
    Tracker × Except Err Bool :=
  match t.failAssign.lookup issue.key with
  | some e => (t, .error e)
  | none => (updateIssue t issue.key (fun g => { g with assignee := some username }), .ok true)

/-- `JiraClient.get_issue_types`. -/
def getIssueTypes (t : Tracker) : List IssueTypeInfo := t.issueTypes

/-- `JiraClient.get_project`: the owning project's id, read off the issue. -/
def getProject (t : Tracker) (key : String) : Except Err String :=
  match t.issues.lookup key with
  | some f => .ok f.projectId
  | none => .error ("Issue Does Not Exist: " ++ key)

/-! ## Task Advancement Workflow (`services/task_processor.py`) -/

/-- Per-item result dict of `TaskProcessor._process_single_subtask`. -/
structure SubtaskResult where
  subtask_key : String
  current_status : String
  actions : List String
  status : String
  message : String
  assignee : Option String
  deriving Repr, DecidableEq

/-- `TaskProcessor._should_process_subtask`: the sub-task has an assignee
whose username equals the caller's. -/
def shouldProcessSubtask (subtask : Issue) (currentUsername : String) : Bool :=
  match subtask.assignee with
  | none => false
  | some name => name == currentUsername

/-- `TaskProcessor._has_worklog_by_user`: some worklog on the issue has the
given author. -/
def hasWorklogByUser (t : Tracker) (subtask : Issue) (username : String) :
    Except Err Bool :=
  match getWorklogs t subtask with
  | .error e => .error e
  | .ok worklogs => .ok (worklogs.any (fun a => a == username))

/-- The `except JIRAError` result dict (lines 165–172 of
`task_processor.py`): status `error`, message `"Error: <text>"`, carrying
the actions accumulated before the raise. -/
def errorResult (k c : String) (actions : List String) (assignee : Option String)
    (e : Err) : SubtaskResult :=
  ⟨k, c, actions, "error", "Error: " ++ e, assignee⟩

/-- The success result dict (lines 154–161 of `task_processor.py`). -/
def successResult (k c : String) (actions : List String) (assignee : Option String) :
    SubtaskResult :=
  ⟨k, c, actions, "success", "Processed successfully", assignee⟩

/-- Lines 137–141 and 154–161 of `_process_single_subtask`: attempt the
`"Completed"` transition (append `"Moved to Completed"` on success, warn
only on failure) and build the final result. -/
def completeStep (t : Tracker) (subtask : Issue) (current_status : String)
    (actions : List String) (assignee : Option String) : Tracker × SubtaskResult :=
  match transitionIssue t subtask "Completed" with
  | (t1, .error e) => (t1, errorResult subtask.key current_status actions assignee e)
  | (t1, .ok true) =>
      (t1, successResult subtask.key current_status (actions ++ ["Moved to Completed"]) assignee)
  | (t1, .ok false) => (t1, successResult subtask.key current_status actions assignee)

/-- Lines 128–161 of `_process_single_subtask` (steps 2–4): the part after
the Open step, entered with the (possibly refreshed) issue, status and
action list. -/
def worklogAndCompleteStep (t : Tracker) (subtask : Issue) (current_status : String)
    (actions : List String) (assignee : Option String) (currentUsername : String) :
    Tracker × SubtaskResult :=
  if current_status == "In Progress." then
    match hasWorklogByUser t subtask currentUsername with
    | .error e => (t, errorResult subtask.key current_status actions assignee e)
    | .ok true =>
        completeStep t subtask current_status
          (actions ++ ["Work already logged, skipped worklog"]) assignee
    | .ok false =>
        match addWorklog t subtask "2h" with
        | (t1, .error e) => (t1, errorResult subtask.key current_status actions assignee e)
        | (t1, .ok _) =>
            completeStep t1 subtask current_status (actions ++ ["Logged 2h work"]) assignee
  else if current_status == "Completed" then
    (t, ⟨subtask.key, current_status, actions, "skipped", "Already Completed", assignee⟩)
  else
    (t, successResult subtask.key current_status actions assignee)

/-- `TaskProcessor._process_single_subtask` (lines 93–172): drive one
assigned sub-task through the state machine, converting any raise into an
`error` result. -/
def processSingleSubtask (t : Tracker) (subtask : Issue) (currentUsername : String) :
    Tracker × SubtaskResult :=
  let current_status := subtask.status
  let assignee := subtask.assignee
  if current_status == "Open" then
    match transitionIssue t subtask "In Progress." with
    | (t1, .error e) => (t1, errorResult subtask.key current_status [] assignee e)
    | (t1, .ok true) =>
        match getIssue t1 subtask.key with
        | .error e =>
            (t1, errorResult subtask.key current_status ["Moved to In Progress"] assignee e)
        | .ok refreshed =>
            worklogAndCompleteStep t1 refreshed refreshed.status
              ["Moved to In Progress"] assignee currentUsername
    | (t1, .ok false) =>
        worklogAndCompleteStep t1 subtask current_status [] assignee currentUsername
  else
    worklogAndCompleteStep t subtask current_status [] assignee currentUsername

/-- Python `f"{assignee_name}"`: `None` renders as `"None"`, a string as
itself. -/
def fmtAssignee : Option String → String
  | none => "None"
  | some s => s

/-- The skip result built at lines 58–65 of `process_story_subtasks` for a
sub-task that is not assigned to the caller. -/
def notAssignedResult (issue : Issue) : SubtaskResult :=
  ⟨issue.key, issue.status, [], "skipped",
   "Not assigned to me (assignee=" ++ fmtAssignee issue.assignee ++ ")", issue.assignee⟩

/-- The per-sub-task loop of `TaskProcessor.process_story_subtasks`
(lines 51–78): fetch each sub-task (a raise here propagates), skip those not
assigned to the caller, process the rest, and count successes versus
everything else.  Returns (results, processed count, skipped count). -/
def processSubtasksLoop (username : String) :
    Tracker → List String → Tracker × Except Err (List SubtaskResult × Nat × Nat)
  | t, [] => (t, .ok ([], 0, 0))
  | t, k :: ks =>
    match getIssue t k with
    | .error e => (t, .error e)
    | .ok issue =>
      if shouldProcessSubtask issue username then
        match processSingleSubtask t issue username with
        | (t1, r) =>
          match processSubtasksLoop username t1 ks with
          | (t2, .error e) => (t2, .error e)
          | (t2, .ok (rs, p, s)) =>
            (t2, .ok (r :: rs,
              (if r.status == "success" then p + 1 else p),
              (if r.status == "success" then s else s + 1)))
      else
        match processSubtasksLoop username t ks with
        | (t2, .error e) => (t2, .error e)
        | (t2, .ok (rs, p, s)) => (t2, .ok (notAssignedResult issue :: rs, p, s + 1))

/-- Batch result of `TaskProcessor.process_story_subtasks`: the per-item
results plus the summary (`total`/`processed`/`skipped`). -/
structure BatchResult where
  results : List SubtaskResult
  total : Nat
  processed : Nat
  skipped : Nat
  deriving Repr, DecidableEq

/-- `TaskProcessor.process_story_subtasks` (lines 22–91). -/
def processStorySubtasks (t : Tracker) (storyKey : String) :
    Tracker × Except Err BatchResult :=
  let username := getCurrentUser t
  match getSubtasks t storyKey with
  | .error e => (t, .error e)
  | .ok keys =>
    match processSubtasksLoop username t keys with
    | (t1, .error e) => (t1, .error e)
    | (t1, .ok (rs, p, s)) => (t1, .ok ⟨rs, keys.length, p, s⟩)

/-- Rank of the three recognized workflow states, in advancement order. -/
def statusRank : String → Option Nat
  | "Open" => some 0
  | "In Progress." => some 1
  | "Completed" => some 2
  | _ => none

/-! ## Sub-task Creation Workflow (`services/subtask_creator.py`) -/

/-- `SubtaskCreator.SUBTASK_TEMPLATES`: the fixed, ordered template names. -/
def SUBTASK_TEMPLATES : List String :=
  ["Unit Test Case Execution",
   "Peer Code Review",
   "Analysis & Understanding",
   "Internal Grooming among Team Members",
   "Dev Testing",
   "Unit Test Case Creation",
   "P0 Demo to QA and other stakeholders"]

/-- Configuration handed to `SubtaskCreator.__init__`. -/
structure CreatorConfig where
  customFieldId : String
  customFieldValue : String
  defaultEstimate : String
  deriving Repr, DecidableEq

/-- Per-template result dict of the creation workflow. -/
structure CreateResult where
  key : Option String
  summary : String
  status : String
  message : String
  deriving Repr, DecidableEq

/-- Result of `SubtaskCreator.create_subtasks`: per-template entries and the
summary (`total`/`created`/`failed`).  `createdCount` is the summary's
`created` field. -/
structure CreationResult where
  created : List CreateResult
  total : Nat
  createdCount : Nat
  failed : Nat
  deriving Repr, DecidableEq

/-- Python `str.lower()` on an (ASCII) issue-type name, written via
`List.map` so that it evaluates by kernel reduction. -/
def lowerName (s : String) : String := String.mk (s.data.map Char.toLower)

/-- `SubtaskCreator._get_subtask_issue_type_id`: the id of the first issue
type whose lowercased name is `"sub-task"`, if any. -/
def getSubtaskIssueTypeId (t : Tracker) : Option String :=
  ((getIssueTypes t).find? (fun it => lowerName it.name == "sub-task")).map (fun it => it.id)

/-- `SubtaskCreator._create_single_subtask` (lines 106–153): build the
payload, create the issue, then assign it to the caller; either remote call
may raise, and a raise after creation does not undo the creation. -/
def createSingleSubtask (t : Tracker) (cfg : CreatorConfig)
    (parentKey summary projectId issueTypeId username : String) :
    Tracker × Except Err CreateResult :=
  let fields : SubtaskFields :=
    { projectId := projectId, parentKey := parentKey, summary := summary,
      description := summary, issueTypeId := issueTypeId,
      originalEstimate := cfg.defaultEstimate,
      customFieldId := cfg.customFieldId, customFieldValue := cfg.customFieldValue }
  match createSubtask t parentKey fields with
  | (t1, .error e) => (t1, .error e)
  | (t1, .ok issue) =>
    match assignIssue t1 issue username with
    | (t2, .error e) => (t2, .error e)
    | (t2, .ok _) =>
      (t2, .ok ⟨some issue.key, summary, "success", "Created and assigned to " ++ username⟩)

/-- The per-template loop of `SubtaskCreator.create_subtasks`
(lines 72–91): attempt every template independently; a raise is recorded as
an `error` entry with the exception's message and counted in `failed`.
Returns (entries, failed count). -/
def createSubtasksLoop (cfg : CreatorConfig)
    (parentKey projectId issueTypeId username : String) :
    Tracker → List String → Tracker × List CreateResult × Nat
  | t, [] => (t, [], 0)
  | t, s :: rest =>
    match createSingleSubtask t cfg parentKey s projectId issueTypeId username with
    | (t1, .ok r) =>
      match createSubtasksLoop cfg parentKey projectId issueTypeId username t1 rest with
      | (t2, rs, f) => (t2, r :: rs, f)
    | (t1, .error e) =>
      match createSubtasksLoop cfg parentKey projectId issueTypeId username t1 rest with
      | (t2, rs, f) => (t2, ⟨none, s, "error", e⟩ :: rs, f + 1)

/-- `SubtaskCreator.create_subtasks` (lines 39–104): resolve the caller,
the sub-task issue type (fatal if absent) and the project, then attempt all
templates and report the summary. -/
def createSubtasks (t : Tracker) (cfg : CreatorConfig) (storyKey : String) :
    Tracker × Except Err CreationResult :=
  let username := getCurrentUser t
  match getSubtaskIssueTypeId t with
  | none => (t, .error "Sub-task issue type not found")
  | some issueTypeId =>
    match getProject t storyKey with
    | .error e => (t, .error e)
    | .ok projectId =>
      match createSubtasksLoop cfg storyKey projectId issueTypeId username t SUBTASK_TEMPLATES with
      | (t1, rs, f) =>
        (t1, .ok ⟨rs, SUBTASK_TEMPLATES.length, SUBTASK_TEMPLATES.length - f, f⟩)

/-! ## Helper lemmas -/

theorem lookup_map_update (key : String) (f : IssueFields → IssueFields)
    (l : List (String × IssueFields)) :
    (l.map (fun p => if p.1 == key then (p.1, f p.2) else p)).lookup key =
      (l.lookup key).map f := by
  induction l with
  | nil => simp
  | cons p rest ih =>
    obtain ⟨a, b⟩ := p
    simp only [beq_iff_eq] at ih
    by_cases h : a = key
    · subst h
      simp [List.lookup_cons, ih]
    · have hb : (key == a) = false := by simp [Ne.symm h]
      simp [List.lookup_cons, h, hb, ih]

theorem lookup_map_update_ne (key k' : String) (h : k' ≠ key) (f : IssueFields → IssueFields)
    (l : List (String × IssueFields)) :
    (l.map (fun p => if p.1 == key then (p.1, f p.2) else p)).lookup k' = l.lookup k' := by
  induction l with
  | nil => simp
  | cons p rest ih =>
    obtain ⟨a, b⟩ := p
    simp only [beq_iff_eq] at ih
    by_cases ha : a = key
    · subst ha
      have hb : (k' == a) = false := by simp [h]
      simp [List.lookup_cons, h, hb, ih]
    · by_cases hk : k' = a
      · subst hk
        simp [List.lookup_cons, ha, ih]
      · have hb : (k' == a) = false := by simp [hk]
        simp [List.lookup_cons, ha, hk, hb, ih]

theorem updateIssue_lookup_self (t : Tracker) (key : String) (f : IssueFields → IssueFields) :
    (updateIssue t key f).issues.lookup key = (t.issues.lookup key).map f :=
  lookup_map_update key f t.issues

theorem updateIssue_lookup_ne (t : Tracker) (key k' : String) (h : k' ≠ key)
    (f : IssueFields → IssueFields) :
    (updateIssue t key f).issues.lookup k' = t.issues.lookup k' :=
  lookup_map_update_ne key k' h f t.issues

theorem updateIssue_offered (t : Tracker) (key : String) (f : IssueFields → IssueFields) :
    (updateIssue t key f).offered = t.offered := rfl

theorem updateIssue_failExec (t : Tracker) (key : String) (f : IssueFields → IssueFields) :
    (updateIssue t key f).failExec = t.failExec := rfl

theorem updateIssue_failWorklogList (t : Tracker) (key : String) (f : IssueFields → IssueFields) :
    (updateIssue t key f).failWorklogList = t.failWorklogList := rfl

theorem updateIssue_failWorklogAdd (t : Tracker) (key : String) (f : IssueFields → IssueFields) :
    (updateIssue t key f).failWorklogAdd = t.failWorklogAdd := rfl

theorem updateIssue_currentUsername (t : Tracker) (key : String) (f : IssueFields → IssueFields) :
    (updateIssue t key f).currentUsername = t.currentUsername := rfl

/-- Step 4 of `_process_single_subtask`: an issue observed in `Completed`
short-circuits to the `Already Completed` skip result, with no mutation. -/
theorem processSingleSubtask_completed (t : Tracker) (issue : Issue) (user : String)
    (hstatus : issue.status = "Completed") :
    processSingleSubtask t issue user =
      (t, ⟨issue.key, "Completed", [], "skipped", "Already Completed", issue.assignee⟩) := by
  simp [processSingleSubtask, worklogAndCompleteStep, hstatus]

theorem updateIssue_lookup_isSome (t : Tracker) (key k' : String)
    (f : IssueFields → IssueFields) :
    ((updateIssue t key f).issues.lookup k').isSome = (t.issues.lookup k').isSome := by
  by_cases h : k' = key
  · subst h
    rw [updateIssue_lookup_self]
    cases t.issues.lookup k' <;> rfl
  · rw [updateIssue_lookup_ne t key k' h]

/-- Case analysis of `JiraClient.transition_issue`: it raises leaving the
tracker unchanged, returns `false` leaving the tracker unchanged, or
executes, setting the issue's status to the transition's target name. -/
theorem transitionIssue_cases (t : Tracker) (issue : Issue) (n : String) :
    (∃ e, transitionIssue t issue n = (t, .error e)) ∨
    (transitionIssue t issue n = (t, .ok false)) ∨
    (∃ f, t.issues.lookup issue.key = some f ∧
      transitionIssue t issue n =
        (updateIssue t issue.key (fun g => { g with status := n }), .ok true)) := by
  unfold transitionIssue
  cases hl : t.issues.lookup issue.key with
  | none => exact .inl ⟨_, rfl⟩
  | some f =>
    cases hc : ((t.offered.filter (fun p => p.1 == f.status)).map (fun p => p.2)).contains n with
    | true =>
      cases hfe : t.failExec.lookup (issue.key, n) with
      | some e =>
        refine .inl ⟨e, ?_⟩
        simp only [hc, hfe]
        simp
      | none =>
        refine .inr (.inr ⟨f, rfl, ?_⟩)
        simp only [hc, hfe]
        simp
    | false =>
      refine .inr (.inl ?_)
      simp only [hc]
      simp

/-- Case analysis of `JiraClient.add_worklog`: it raises leaving the tracker
unchanged, or appends a worklog authored by the current user. -/
theorem addWorklog_cases (t : Tracker) (issue : Issue) (ts : String) :
    (∃ e, addWorklog t issue ts = (t, .error e)) ∨
    (addWorklog t issue ts =
      (updateIssue t issue.key
        (fun g => { g with worklogAuthors := g.worklogAuthors ++ [t.currentUsername] }),
       .ok true)) := by
  unfold addWorklog
  cases hfa : t.failWorklogAdd.lookup issue.key with
  | some e => exact .inl ⟨e, rfl⟩
  | none =>
    cases hl : t.issues.lookup issue.key with
    | none => exact .inl ⟨_, rfl⟩
    | some f => exact .inr rfl

/-- Shape of the result of `completeStep`: success with or without the
`"Moved to Completed"` action, or a provider error carrying the actions
accumulated so far. -/
theorem completeStep_shape (t : Tracker) (subtask : Issue) (cs : String)
    (actions : List String) (assignee : Option String) :
    (completeStep t subtask cs actions assignee).2 =
        successResult subtask.key cs (actions ++ ["Moved to Completed"]) assignee ∨
    (completeStep t subtask cs actions assignee).2 =
        successResult subtask.key cs actions assignee ∨
    (∃ e, (completeStep t subtask cs actions assignee).2 =
        errorResult subtask.key cs actions assignee e) := by
  unfold completeStep
  rcases h : transitionIssue t subtask "Completed" with ⟨t1, r1⟩
  cases r1 with
  | error e => exact .inr (.inr ⟨e, rfl⟩)
  | ok b =>
    cases b with
    | true => exact .inl rfl
    | false => exact .inr (.inl rfl)

/-- Shape of the result of `worklogAndCompleteStep`: a success whose action
list extends `actions` by one of the recorded shapes, the
`Already Completed` skip (only when entered in `Completed`), or a provider
error carrying the actions accumulated before the raise. -/
theorem worklogAndCompleteStep_shape (t : Tracker) (subtask : Issue) (cs : String)
    (actions : List String) (assignee : Option String) (user : String) :
    (∃ acts, (acts = actions ∨ acts = actions ++ ["Logged 2h work"] ∨
        acts = actions ++ ["Work already logged, skipped worklog"] ∨
        acts = actions ++ ["Logged 2h work", "Moved to Completed"] ∨
        acts = actions ++ ["Work already logged, skipped worklog", "Moved to Completed"]) ∧
      (worklogAndCompleteStep t subtask cs actions assignee user).2 =
        successResult subtask.key cs acts assignee) ∨
    (cs = "Completed" ∧ (worklogAndCompleteStep t subtask cs actions assignee user).2 =
      ⟨subtask.key, cs, actions, "skipped", "Already Completed", assignee⟩) ∨
    (∃ e acts, (acts = actions ∨ acts = actions ++ ["Logged 2h work"] ∨
        acts = actions ++ ["Work already logged, skipped worklog"]) ∧
      (worklogAndCompleteStep t subtask cs actions assignee user).2 =
        errorResult subtask.key cs acts assignee e) := by
  by_cases hip : cs = "In Progress."
  · subst hip
    cases hw : hasWorklogByUser t subtask user with
    | error e =>
      refine .inr (.inr ⟨e, actions, .inl rfl, ?_⟩)
      simp [worklogAndCompleteStep, hw]
    | ok b =>
      cases b with
      | true =>
        rcases completeStep_shape t subtask "In Progress."
            (actions ++ ["Work already logged, skipped worklog"]) assignee with h | h | ⟨e, h⟩
        · refine .inl ⟨actions ++ ["Work already logged, skipped worklog", "Moved to Completed"],
            .inr (.inr (.inr (.inr rfl))), ?_⟩
          simp [worklogAndCompleteStep, hw, h]
        · refine .inl ⟨actions ++ ["Work already logged, skipped worklog"],
            .inr (.inr (.inl rfl)), ?_⟩
          simp [worklogAndCompleteStep, hw, h]
        · refine .inr (.inr ⟨e, actions ++ ["Work already logged, skipped worklog"],
            .inr (.inr rfl), ?_⟩)
          simp [worklogAndCompleteStep, hw, h]
      | false =>
        rcases addWorklog_cases t subtask "2h" with ⟨e, ha⟩ | ha
        · refine .inr (.inr ⟨e, actions, .inl rfl, ?_⟩)
          simp [worklogAndCompleteStep, hw, ha]
        · rcases completeStep_shape
              (updateIssue t subtask.key
                (fun g => { g with worklogAuthors := g.worklogAuthors ++ [t.currentUsername] }))
              subtask "In Progress." (actions ++ ["Logged 2h work"]) assignee with h | h | ⟨e, h⟩
          · refine .inl ⟨actions ++ ["Logged 2h work", "Moved to Completed"],
              .inr (.inr (.inr (.inl rfl))), ?_⟩
            simp [worklogAndCompleteStep, hw, ha, h]
          · refine .inl ⟨actions ++ ["Logged 2h work"], .inr (.inl rfl), ?_⟩
            simp [worklogAndCompleteStep, hw, ha, h]
          · refine .inr (.inr ⟨e, actions ++ ["Logged 2h work"], .inr (.inl rfl), ?_⟩)
            simp [worklogAndCompleteStep, hw, ha, h]
  · by_cases hcp : cs = "Completed"
    · subst hcp
      refine .inr (.inl ⟨rfl, ?_⟩)
      simp [worklogAndCompleteStep]
    · refine .inl ⟨actions, .inl rfl, ?_⟩
      simp [worklogAndCompleteStep, hip, hcp]

/-- Master shape of a per-item result of `_process_single_subtask`: success
with the fixed message; the `Already Completed` skip, only for a sub-task
observed in `Completed`, with no actions; or a provider error whose message
is `"Error: <text>"` and whose action list is one of the proper partial
traces recorded before the raise (never containing
`"Moved to Completed"`). -/
theorem processSingleSubtask_result_shape (t : Tracker) (issue : Issue) (user : String) :
    ((processSingleSubtask t issue user).2.status = "success" ∧
     (processSingleSubtask t issue user).2.message = "Processed successfully") ∨
    ((processSingleSubtask t issue user).2.status = "skipped" ∧
     (processSingleSubtask t issue user).2.message = "Already Completed" ∧
     (processSingleSubtask t issue user).2.actions = [] ∧ issue.status = "Completed") ∨
    ((processSingleSubtask t issue user).2.status = "error" ∧
     (∃ m, (processSingleSubtask t issue user).2.message = "Error: " ++ m) ∧
     ((processSingleSubtask t issue user).2.actions = [] ∨
      (processSingleSubtask t issue user).2.actions = ["Moved to In Progress"] ∨
      (processSingleSubtask t issue user).2.actions = ["Logged 2h work"] ∨
      (processSingleSubtask t issue user).2.actions = ["Work already logged, skipped worklog"] ∨
      (processSingleSubtask t issue user).2.actions = ["Moved to In Progress", "Logged 2h work"] ∨
      (processSingleSubtask t issue user).2.actions =
        ["Moved to In Progress", "Work already logged, skipped worklog"])) := by
  by_cases hopen : issue.status = "Open"
  · rcases transitionIssue_cases t issue "In Progress." with ⟨e, htr⟩ | htr | ⟨f, hl, htr⟩
    · refine .inr (.inr ?_)
      refine ⟨?_, ⟨e, ?_⟩, .inl ?_⟩ <;>
        simp [processSingleSubtask, hopen, htr, errorResult]
    · have hwc := worklogAndCompleteStep_shape t issue "Open" [] issue.assignee user
      rcases hwc with ⟨acts, hacts, h⟩ | ⟨hcs, h⟩ | ⟨e, acts, hacts, h⟩
      · refine .inl ?_
        simp [processSingleSubtask, hopen, htr, h, successResult]
      · exact absurd hcs (by decide)
      · refine .inr (.inr ?_)
        refine ⟨?_, ⟨e, ?_⟩, ?_⟩
        · simp [processSingleSubtask, hopen, htr, h, errorResult]
        · simp [processSingleSubtask, hopen, htr, h, errorResult]
        · rcases hacts with h1 | h1 | h1 <;> subst h1 <;>
            simp [processSingleSubtask, hopen, htr, h, errorResult]
    · have hget : getIssue (updateIssue t issue.key (fun g => { g with status := "In Progress." }))
          issue.key = .ok ⟨issue.key, "In Progress.", f.assignee⟩ := by
        simp [getIssue, updateIssue_lookup_self, hl]
      have hwc := worklogAndCompleteStep_shape
        (updateIssue t issue.key (fun g => { g with status := "In Progress." }))
        ⟨issue.key, "In Progress.", f.assignee⟩ "In Progress."
        ["Moved to In Progress"] issue.assignee user
      rcases hwc with ⟨acts, hacts, h⟩ | ⟨hcs, h⟩ | ⟨e, acts, hacts, h⟩
      · refine .inl ?_
        simp [processSingleSubtask, hopen, htr, hget, h, successResult]
      · exact absurd hcs (by decide)
      · refine .inr (.inr ?_)
        refine ⟨?_, ⟨e, ?_⟩, ?_⟩
        · simp [processSingleSubtask, hopen, htr, hget, h, errorResult]
        · simp [processSingleSubtask, hopen, htr, hget, h, errorResult]
        · rcases hacts with h1 | h1 | h1 <;> subst h1 <;>
            simp [processSingleSubtask, hopen, htr, hget, h, errorResult]
  · have hb : (issue.status == "Open") = false := by simp [hopen]
    have hwc := worklogAndCompleteStep_shape t issue issue.status [] issue.assignee user
    rcases hwc with ⟨acts, hacts, h⟩ | ⟨hcs, h⟩ | ⟨e, acts, hacts, h⟩
    · refine .inl ?_
      simp [processSingleSubtask, hb, h, successResult]
    · refine .inr (.inl ?_)
      rw [hcs] at h
      simp [processSingleSubtask, hb, hcs, h]
    · refine .inr (.inr ?_)
      refine ⟨?_, ⟨e, ?_⟩, ?_⟩
      · simp [processSingleSubtask, hb, h, errorResult]
      · simp [processSingleSubtask, hb, h, errorResult]
      · rcases hacts with h1 | h1 | h1 <;> subst h1 <;>
          simp [processSingleSubtask, hb, h, errorResult]

/-- The `current_status` recorded by steps 2–4 is exactly the status with
which they were entered. -/
theorem worklogAndCompleteStep_current_status (t : Tracker) (subtask : Issue) (cs : String)
    (actions : List String) (assignee : Option String) (user : String) :
    (worklogAndCompleteStep t subtask cs actions assignee user).2.current_status = cs := by
  rcases worklogAndCompleteStep_shape t subtask cs actions assignee user with
    ⟨acts, _, h⟩ | ⟨_, h⟩ | ⟨e, acts, _, h⟩ <;> simp [h, successResult, errorResult]

/-- `processed`/`skipped` counting of the per-sub-task loop: `processed`
counts exactly the `success` results, `skipped` all others, and every key
yields exactly one result. -/
theorem processSubtasksLoop_counts (user : String) :
    ∀ (keys : List String) (t t' : Tracker) (rs : List SubtaskResult) (p s : Nat),
      processSubtasksLoop user t keys = (t', .ok (rs, p, s)) →
      rs.length = keys.length ∧
      p = rs.countP (fun r => r.status == "success") ∧
      s = rs.countP (fun r => !(r.status == "success"))
  | [], t, t', rs, p, s => by
    intro h
    simp only [processSubtasksLoop, Prod.mk.injEq, Except.ok.injEq] at h
    obtain ⟨-, rfl, rfl, rfl⟩ := h
    simp
  | k :: ks, t, t', rs, p, s => by
    intro h
    simp only [processSubtasksLoop] at h
    cases hget : getIssue t k with
    | error e =>
      rw [hget] at h
      simp only [Prod.mk.injEq] at h
      exact Except.noConfusion h.2
    | ok issue =>
      rw [hget] at h
      dsimp only at h
      by_cases hsp : shouldProcessSubtask issue user = true
      · rw [if_pos hsp] at h
        rcases hone : processSingleSubtask t issue user with ⟨t1, r⟩
        rw [hone] at h
        dsimp only at h
        rcases hrest : processSubtasksLoop user t1 ks with ⟨t2, res⟩
        rw [hrest] at h
        cases res with
        | error e =>
          simp only [Prod.mk.injEq] at h
          exact Except.noConfusion h.2
        | ok triple =>
          obtain ⟨rs', p', s'⟩ := triple
          simp only [Prod.mk.injEq, Except.ok.injEq] at h
          obtain ⟨-, rfl, rfl, rfl⟩ := h
          obtain ⟨ih1, ih2, ih3⟩ := processSubtasksLoop_counts user ks t1 t2 rs' p' s' hrest
          refine ⟨by simp [ih1], ?_, ?_⟩ <;>
            by_cases hru : (r.status == "success") = true <;>
              simp [List.countP_cons, hru, ih2, ih3]
      · rw [if_neg hsp] at h
        rcases hrest : processSubtasksLoop user t ks with ⟨t2, res⟩
        rw [hrest] at h
        cases res with
        | error e =>
          simp only [Prod.mk.injEq] at h
          exact Except.noConfusion h.2
        | ok triple =>
          obtain ⟨rs', p', s'⟩ := triple
          simp only [Prod.mk.injEq, Except.ok.injEq] at h
          obtain ⟨-, rfl, rfl, rfl⟩ := h
          obtain ⟨ih1, ih2, ih3⟩ := processSubtasksLoop_counts user ks t t2 rs' p' s' hrest
          refine ⟨by simp [ih1], ?_, ?_⟩ <;>
            simp [List.countP_cons, notAssignedResult, ih2, ih3]

/-- `completeStep` never deletes or creates issues. -/
theorem completeStep_lookup_isSome (t : Tracker) (subtask : Issue) (cs : String)
    (actions : List String) (assignee : Option String) (k : String) :
    (((completeStep t subtask cs actions assignee).1).issues.lookup k).isSome =
      (t.issues.lookup k).isSome := by
  rcases transitionIssue_cases t subtask "Completed" with ⟨e, h⟩ | h | ⟨f, hl, h⟩ <;>
    simp [completeStep, h, updateIssue_lookup_isSome]

/-- Steps 2–4 never delete or create issues. -/
theorem worklogAndCompleteStep_lookup_isSome (t : Tracker) (subtask : Issue) (cs : String)
    (actions : List String) (assignee : Option String) (user : String) (k : String) :
    (((worklogAndCompleteStep t subtask cs actions assignee user).1).issues.lookup k).isSome =
      (t.issues.lookup k).isSome := by
  by_cases hip : cs = "In Progress."
  · subst hip
    cases hw : hasWorklogByUser t subtask user with
    | error e => simp [worklogAndCompleteStep, hw]
    | ok b =>
      cases b with
      | true => simp [worklogAndCompleteStep, hw, completeStep_lookup_isSome]
      | false =>
        rcases addWorklog_cases t subtask "2h" with ⟨e, ha⟩ | ha
        · simp [worklogAndCompleteStep, hw, ha]
        · simp [worklogAndCompleteStep, hw, ha, completeStep_lookup_isSome,
            updateIssue_lookup_isSome]
  · by_cases hcp : cs = "Completed" <;> simp [worklogAndCompleteStep, hip, hcp]

/-- `_process_single_subtask` never deletes or creates issues. -/
theorem processSingleSubtask_lookup_isSome (t : Tracker) (issue : Issue) (user : String)
    (k : String) :
    (((processSingleSubtask t issue user).1).issues.lookup k).isSome =
      (t.issues.lookup k).isSome := by
  by_cases hopen : issue.status = "Open"
  · rcases transitionIssue_cases t issue "In Progress." with ⟨e, htr⟩ | htr | ⟨f, hl, htr⟩
    · simp [processSingleSubtask, hopen, htr]
    · simp [processSingleSubtask, hopen, htr, worklogAndCompleteStep_lookup_isSome]
    · have hget : getIssue (updateIssue t issue.key (fun g => { g with status := "In Progress." }))
          issue.key = .ok ⟨issue.key, "In Progress.", f.assignee⟩ := by
        simp [getIssue, updateIssue_lookup_self, hl]
      simp [processSingleSubtask, hopen, htr, hget, worklogAndCompleteStep_lookup_isSome,
        updateIssue_lookup_isSome]
  · have hb : (issue.status == "Open") = false := by simp [hopen]
    simp [processSingleSubtask, hb, worklogAndCompleteStep_lookup_isSome]

/-- When every sub-task key exists on the tracker, the per-sub-task loop
returns normally — one result per key — no matter which per-item provider
errors are injected: an item's error never aborts the siblings. -/
theorem processSubtasksLoop_completes (user : String) :
    ∀ (keys : List String) (t : Tracker),
      (∀ k ∈ keys, (t.issues.lookup k).isSome = true) →
      ∃ t' rs p s, processSubtasksLoop user t keys = (t', .ok (rs, p, s)) ∧
        rs.length = keys.length
  | [], t => fun _ => ⟨t, [], 0, 0, rfl, rfl⟩
  | k :: ks, t => by
    intro hkeys
    have hk := hkeys k (by simp)
    cases hl : t.issues.lookup k with
    | none => rw [hl] at hk; simp at hk
    | some f =>
      have hget : getIssue t k = .ok ⟨k, f.status, f.assignee⟩ := by simp [getIssue, hl]
      by_cases hsp : shouldProcessSubtask ⟨k, f.status, f.assignee⟩ user = true
      · rcases hone : processSingleSubtask t ⟨k, f.status, f.assignee⟩ user with ⟨t1, r⟩
        have hpres : ∀ k' ∈ ks, (t1.issues.lookup k').isSome = true := by
          intro k' hk'
          have hp := processSingleSubtask_lookup_isSome t ⟨k, f.status, f.assignee⟩ user k'
          rw [hone] at hp
          rw [hp]
          exact hkeys k' (by simp [hk'])
        obtain ⟨t2, rs, p, s, hrest, hlen⟩ := processSubtasksLoop_completes user ks t1 hpres
        refine ⟨t2, r :: rs, (if (r.status == "success") = true then p + 1 else p),
          (if (r.status == "success") = true then s else s + 1), ?_, by simp [hlen]⟩
        simp only [processSubtasksLoop, hget]
        rw [if_pos hsp, hone]
        simp only [hrest]
      · have hpres : ∀ k' ∈ ks, (t.issues.lookup k').isSome = true := by
          intro k' hk'
          exact hkeys k' (by simp [hk'])
        obtain ⟨t2, rs, p, s, hrest, hlen⟩ := processSubtasksLoop_completes user ks t hpres
        refine ⟨t2, notAssignedResult ⟨k, f.status, f.assignee⟩ :: rs, p, s + 1, ?_,
          by simp [hlen]⟩
        simp only [processSubtasksLoop, hget]
        rw [if_neg hsp]
        simp only [hrest]

theorem statusOf_updateIssue_status_self (t : Tracker) (k n : String) :
    statusOf (updateIssue t k (fun g => { g with status := n })) k =
      (t.issues.lookup k).map (fun _ => n) := by
  cases hl : t.issues.lookup k <;>
    simp [statusOf, updateIssue_lookup_self, hl]

theorem statusOf_updateIssue_ne (t : Tracker) (k k' : String) (h : k' ≠ k)
    (f : IssueFields → IssueFields) :
    statusOf (updateIssue t k f) k' = statusOf t k' := by
  simp [statusOf, updateIssue_lookup_ne t k k' h f]

theorem statusOf_updateIssue_of_status_eq (t : Tracker) (k k' : String)
    (f : IssueFields → IssueFields) (hf : ∀ g, (f g).status = g.status) :
    statusOf (updateIssue t k f) k' = statusOf t k' := by
  by_cases h : k' = k
  · subst h
    cases hl : t.issues.lookup k' <;>
      simp [statusOf, updateIssue_lookup_self, hl, hf]
  · exact statusOf_updateIssue_ne t k k' h f

theorem getIssue_ok {t : Tracker} {key : String} {issue : Issue}
    (h : getIssue t key = .ok issue) :
    issue.key = key ∧ statusOf t key = some issue.status := by
  unfold getIssue at h
  cases hl : t.issues.lookup key with
  | none => rw [hl] at h; exact Except.noConfusion h
  | some f =>
    rw [hl] at h
    cases h
    exact ⟨rfl, by simp [statusOf, hl]⟩

/-- `completeStep` leaves every status unchanged, except that it may set
the processed issue's status to `"Completed"`. -/
theorem completeStep_statusOf (t : Tracker) (subtask : Issue) (cs : String)
    (actions : List String) (assignee : Option String) (k : String) :
    statusOf ((completeStep t subtask cs actions assignee).1) k = statusOf t k ∨
    (k = subtask.key ∧ (statusOf t k).isSome = true ∧
      statusOf ((completeStep t subtask cs actions assignee).1) k = some "Completed") := by
  rcases transitionIssue_cases t subtask "Completed" with ⟨e, h⟩ | h | ⟨f, hl, h⟩
  · left; simp [completeStep, h]
  · left; simp [completeStep, h]
  · by_cases hk : k = subtask.key
    · subst hk
      right
      refine ⟨rfl, by simp [statusOf, hl], ?_⟩
      simp [completeStep, h, statusOf_updateIssue_status_self, hl]
    · left
      simp [completeStep, h, statusOf_updateIssue_ne t subtask.key k hk]

/-- Steps 2–4 leave every status unchanged, except that — only when entered
in `"In Progress."` — they may set the processed issue's status to
`"Completed"`. -/
theorem worklogAndCompleteStep_statusOf (t : Tracker) (subtask : Issue) (cs : String)
    (actions : List String) (assignee : Option String) (user : String) (k : String) :
    statusOf ((worklogAndCompleteStep t subtask cs actions assignee user).1) k = statusOf t k ∨
    (cs = "In Progress." ∧ k = subtask.key ∧
      statusOf ((worklogAndCompleteStep t subtask cs actions assignee user).1) k =
        some "Completed") := by
  by_cases hip : cs = "In Progress."
  · subst hip
    cases hw : hasWorklogByUser t subtask user with
    | error e => left; simp [worklogAndCompleteStep, hw]
    | ok b =>
      cases b with
      | true =>
        rcases completeStep_statusOf t subtask "In Progress."
            (actions ++ ["Work already logged, skipped worklog"]) assignee k with
          h | ⟨hk, -, hc⟩
        · left
          simpa [worklogAndCompleteStep, hw] using h
        · right
          exact ⟨rfl, hk, by simpa [worklogAndCompleteStep, hw] using hc⟩
      | false =>
        rcases addWorklog_cases t subtask "2h" with ⟨e, ha⟩ | ha
        · left; simp [worklogAndCompleteStep, hw, ha]
        · have hstw : ∀ k', statusOf (updateIssue t subtask.key
              (fun g => { g with worklogAuthors := g.worklogAuthors ++ [t.currentUsername] }))
                k' = statusOf t k' :=
            fun k' => statusOf_updateIssue_of_status_eq t subtask.key k' _ (fun g => rfl)
          rcases completeStep_statusOf (updateIssue t subtask.key
              (fun g => { g with worklogAuthors := g.worklogAuthors ++ [t.currentUsername] }))
              subtask "In Progress." (actions ++ ["Logged 2h work"]) assignee k with
            h | ⟨hk, -, hc⟩
          · left
            rw [hstw k] at h
            simpa [worklogAndCompleteStep, hw, ha] using h
          · right
            exact ⟨rfl, hk, by simpa [worklogAndCompleteStep, hw, ha] using hc⟩
  · left
    by_cases hcp : cs = "Completed" <;> simp [worklogAndCompleteStep, hip, hcp]

/-- Transitivity of "unchanged or advanced strictly forward in rank". -/
theorem statusRank_forward_trans {s s1 s' : String}
    (h1 : s1 = s ∨ ∃ i j, statusRank s = some i ∧ statusRank s1 = some j ∧ i < j)
    (h2 : s' = s1 ∨ ∃ i j, statusRank s1 = some i ∧ statusRank s' = some j ∧ i < j) :
    s' = s ∨ ∃ i j, statusRank s = some i ∧ statusRank s' = some j ∧ i < j := by
  rcases h1 with rfl | ⟨i, j, hi, hj, hij⟩
  · exact h2
  · rcases h2 with rfl | ⟨i2, j2, hi2, hj2, hij2⟩
    · exact .inr ⟨i, j, hi, hj, hij⟩
    · right
      refine ⟨i, j2, hi, hj2, ?_⟩
      rw [hj] at hi2
      have hji : i2 = j := (Option.some.inj hi2).symm
      omega

/-- Per-item status monotonicity: processing one sub-task (whose fetched
view is consistent with the tracker) leaves every issue's status unchanged
or advanced strictly forward in the Open → In Progress. → Completed
order. -/
theorem processSingleSubtask_status_forward (t : Tracker) (issue : Issue) (user : String)
    (hcons : getIssue t issue.key = .ok issue) (k s s' : String)
    (hs : statusOf t k = some s)
    (hs' : statusOf ((processSingleSubtask t issue user).1) k = some s') :
    s' = s ∨ ∃ i j, statusRank s = some i ∧ statusRank s' = some j ∧ i < j := by
  obtain ⟨-, hst⟩ := getIssue_ok hcons
  by_cases hopen : issue.status = "Open"
  · rcases transitionIssue_cases t issue "In Progress." with ⟨e, htr⟩ | htr | ⟨f, hl, htr⟩
    · left
      have heq : (processSingleSubtask t issue user).1 = t := by
        simp [processSingleSubtask, hopen, htr]
      rw [heq, hs] at hs'
      exact (Option.some.inj hs').symm
    · rcases worklogAndCompleteStep_statusOf t issue "Open" [] issue.assignee user k with
        h | ⟨hcs, -, -⟩
      · left
        have heq : (processSingleSubtask t issue user).1 =
            (worklogAndCompleteStep t issue "Open" [] issue.assignee user).1 := by
          simp [processSingleSubtask, hopen, htr]
        rw [heq, h, hs] at hs'
        exact (Option.some.inj hs').symm
      · exact absurd hcs (by decide)
    · have hget : getIssue (updateIssue t issue.key (fun g => { g with status := "In Progress." }))
          issue.key = .ok ⟨issue.key, "In Progress.", f.assignee⟩ := by
        simp [getIssue, updateIssue_lookup_self, hl]
      have heq : (processSingleSubtask t issue user).1 =
          (worklogAndCompleteStep
            (updateIssue t issue.key (fun g => { g with status := "In Progress." }))
            ⟨issue.key, "In Progress.", f.assignee⟩ "In Progress."
            ["Moved to In Progress"] issue.assignee user).1 := by
        simp [processSingleSubtask, hopen, htr, hget]
      rcases worklogAndCompleteStep_statusOf
          (updateIssue t issue.key (fun g => { g with status := "In Progress." }))
          ⟨issue.key, "In Progress.", f.assignee⟩ "In Progress."
          ["Moved to In Progress"] issue.assignee user k with h | ⟨-, hk, hc⟩
      · by_cases hk : k = issue.key
        · subst hk
          have hsO : s = "Open" := by
            rw [hst] at hs
            rw [← Option.some.inj hs, hopen]
          have ht1 : statusOf (updateIssue t issue.key
              (fun g => { g with status := "In Progress." })) issue.key
              = some "In Progress." := by
            rw [statusOf_updateIssue_status_self, hl]
            rfl
          rw [heq, h, ht1] at hs'
          right
          refine ⟨0, 1, ?_, ?_, ?_⟩
          · rw [hsO]; rfl
          · rw [← Option.some.inj hs']; rfl
          · omega
        · left
          have ht1 : statusOf (updateIssue t issue.key
              (fun g => { g with status := "In Progress." })) k = statusOf t k :=
            statusOf_updateIssue_ne t issue.key k hk _
          rw [heq, h, ht1, hs] at hs'
          exact (Option.some.inj hs').symm
      · have hk' : k = issue.key := hk
        subst hk'
        have hsO : s = "Open" := by
          rw [hst] at hs
          rw [← Option.some.inj hs, hopen]
        rw [heq, hc] at hs'
        right
        refine ⟨0, 2, ?_, ?_, ?_⟩
        · rw [hsO]; rfl
        · rw [← Option.some.inj hs']; rfl
        · omega
  · have hb : (issue.status == "Open") = false := by simp [hopen]
    have heq : (processSingleSubtask t issue user).1 =
        (worklogAndCompleteStep t issue issue.status [] issue.assignee user).1 := by
      simp [processSingleSubtask, hb]
    rcases worklogAndCompleteStep_statusOf t issue issue.status [] issue.assignee user k with
      h | ⟨hcs, hk, hc⟩
    · left
      rw [heq, h, hs] at hs'
      exact (Option.some.inj hs').symm
    · subst hk
      have hsI : s = "In Progress." := by
        rw [hst] at hs
        rw [← Option.some.inj hs, hcs]
      rw [heq, hc] at hs'
      right
      refine ⟨1, 2, ?_, ?_, ?_⟩
      · rw [hsI]; rfl
      · rw [← Option.some.inj hs']; rfl
      · omega

/-- If an issue has a status on the tracker, it still has one after one
sub-task is processed. -/
theorem processSingleSubtask_statusOf_isSome (t : Tracker) (issue : Issue) (user : String)
    (k : String) {s : String} (hs : statusOf t k = some s) :
    ∃ s1, statusOf ((processSingleSubtask t issue user).1) k = some s1 := by
  have hks : (t.issues.lookup k).isSome = true := by
    cases hlk : t.issues.lookup k with
    | none => simp [statusOf, hlk] at hs
    | some g => rfl
  have hp := processSingleSubtask_lookup_isSome t issue user k
  rw [hks] at hp
  cases hlk : ((processSingleSubtask t issue user).1).issues.lookup k with
  | none => rw [hlk] at hp; exact Bool.noConfusion hp
  | some g => exact ⟨g.status, by simp [statusOf, hlk]⟩

/-- Batch-loop status monotonicity. -/
theorem processSubtasksLoop_status_forward (user : String) :
    ∀ (keys : List String) (t : Tracker) (k s s' : String),
      statusOf t k = some s →
      statusOf ((processSubtasksLoop user t keys).1) k = some s' →
      s' = s ∨ ∃ i j, statusRank s = some i ∧ statusRank s' = some j ∧ i < j
  | [], t, k, s, s' => by
    intro hs hs'
    simp only [processSubtasksLoop] at hs'
    rw [hs] at hs'
    exact .inl (Option.some.inj hs').symm
  | k0 :: ks, t, k, s, s' => by
    intro hs hs'
    simp only [processSubtasksLoop] at hs'
    cases hget : getIssue t k0 with
    | error e =>
      rw [hget] at hs'
      dsimp only at hs'
      rw [hs] at hs'
      exact .inl (Option.some.inj hs').symm
    | ok issue =>
      rw [hget] at hs'
      dsimp only at hs'
      by_cases hsp : shouldProcessSubtask issue user = true
      · rw [if_pos hsp] at hs'
        rcases hone : processSingleSubtask t issue user with ⟨t1, r⟩
        rw [hone] at hs'
        obtain ⟨s1, hs1⟩ := processSingleSubtask_statusOf_isSome t issue user k hs
        rw [hone] at hs1
        have hcons : getIssue t issue.key = .ok issue := by
          obtain ⟨hik, -⟩ := getIssue_ok hget
          rw [hik]
          exact hget
        have hfwd1 := processSingleSubtask_status_forward t issue user hcons k s s1 hs
          (by rw [hone]; exact hs1)
        rcases hrest : processSubtasksLoop user t1 ks with ⟨t2, res⟩
        rw [hrest] at hs'
        have hfwd2 := processSubtasksLoop_status_forward user ks t1 k s1 s' hs1 ?_
        · exact statusRank_forward_trans hfwd1 hfwd2
        · rw [hrest]
          cases res <;> exact hs'
      · rw [if_neg hsp] at hs'
        rcases hrest : processSubtasksLoop user t ks with ⟨t2, res⟩
        rw [hrest] at hs'
        have hfwd := processSubtasksLoop_status_forward user ks t k s s' hs ?_
        · exact hfwd
        · rw [hrest]
          cases res <;> exact hs'

/-- C7: after one run of the advancement workflow, every issue's status is
either unchanged or advanced strictly forward in the
Open → In Progress. → Completed order; no transition it executes moves a
status backward. -/
theorem claim_C7 (t : Tracker) (storyKey : String) (k s s' : String)
    (hs : statusOf t k = some s)
    (hs' : statusOf ((processStorySubtasks t storyKey).1) k = some s') :
    s' = s ∨ ∃ i j, statusRank s = some i ∧ statusRank s' = some j ∧ i < j := by
  unfold processStorySubtasks at hs'
  cases hsub : getSubtasks t storyKey with
  | error e =>
    rw [hsub] at hs'
    dsimp only at hs'
    rw [hs] at hs'
    exact .inl (Option.some.inj hs').symm
  | ok keys =>
    rw [hsub] at hs'
    dsimp only at hs'
    rcases hloop : processSubtasksLoop (getCurrentUser t) t keys with ⟨t1, res⟩
    rw [hloop] at hs'
    refine processSubtasksLoop_status_forward (getCurrentUser t) keys t k s s' hs ?_
    rw [hloop]
    cases res <;> exact hs'

theorem lookup_append_of_none {β : Type} {l1 : List (String × β)} {k : String}
    (h : l1.lookup k = none) (l2 : List (String × β)) :
    (l1 ++ l2).lookup k = l2.lookup k := by
  induction l1 with
  | nil => simp
  | cons p rest ih =>
    obtain ⟨a, b⟩ := p
    cases hb : k == a with
    | true =>
      rw [List.lookup_cons, hb] at h
      exact Option.noConfusion h
    | false =>
      rw [List.lookup_cons, hb] at h
      rw [List.cons_append, List.lookup_cons, hb]
      exact ih h

theorem lookup_append_of_some {β : Type} {l1 : List (String × β)} {k : String} {v : β}
    (h : l1.lookup k = some v) (l2 : List (String × β)) :
    (l1 ++ l2).lookup k = some v := by
  induction l1 with
  | nil => simp at h
  | cons p rest ih =>
    obtain ⟨a, b⟩ := p
    cases hb : k == a with
    | true =>
      rw [List.lookup_cons, hb] at h
      rw [List.cons_append, List.lookup_cons, hb]
      exact h
    | false =>
      rw [List.lookup_cons, hb] at h
      rw [List.cons_append, List.lookup_cons, hb]
      exact ih h

/-- Characterization of the per-template creation loop: it always returns
one entry per template, `failed` counts exactly the `error` entries, the
(summary, status) projection of the entries follows the injected creation
failures, and every `error` entry carries the raising call's message. -/
theorem createSubtasksLoop_spec (cfg : CreatorConfig) (parent pid tid user : String) :
    ∀ (templates : List String) (t : Tracker),
      t.failAssign = [] →
      ∃ t2 rs, createSubtasksLoop cfg parent pid tid user t templates =
          (t2, rs, rs.countP (fun r => r.status == "error")) ∧
        rs.map (fun r => (r.summary, r.status)) =
          templates.map (fun s =>
            (s, if (t.failCreate.lookup s).isSome then "error" else "success")) ∧
        (∀ r ∈ rs, r.status = "error" →
          ∃ e, t.failCreate.lookup r.summary = some e ∧ r = ⟨none, r.summary, "error", e⟩)
  | [], t => fun _ => ⟨t, [], rfl, by simp, by simp⟩
  | s :: rest, t => by
    intro hfa
    cases hfc : t.failCreate.lookup s with
    | some e =>
      have hone : createSingleSubtask t cfg parent s pid tid user = (t, .error e) := by
        simp [createSingleSubtask, createSubtask, hfc]
      obtain ⟨t2, rs, hloop, hmap, herr⟩ :=
        createSubtasksLoop_spec cfg parent pid tid user rest t hfa
      refine ⟨t2, ⟨none, s, "error", e⟩ :: rs, ?_, ?_, ?_⟩
      · simp only [createSubtasksLoop, hone]
        rw [hloop]
        simp [List.countP_cons]
      · simp [hmap, hfc]
      · intro r hr hrerr
        rcases List.mem_cons.mp hr with rfl | hr2
        · exact ⟨e, by simpa using hfc, rfl⟩
        · exact herr r hr2 hrerr
    | none =>
      have hone : createSingleSubtask t cfg parent s pid tid user =
          (updateIssue
            { t with
                issues := t.issues ++ [(genKey t.nextId,
                  { status := "Open", assignee := none, worklogAuthors := [],
                    subtaskKeys := [], projectId := pid, summary := s })],
                nextId := t.nextId + 1 }
            (genKey t.nextId) (fun g => { g with assignee := some user }),
           .ok ⟨some (genKey t.nextId), s, "success", "Created and assigned to " ++ user⟩) := by
        simp [createSingleSubtask, createSubtask, assignIssue, hfc, hfa]
      obtain ⟨t2, rs, hloop, hmap, herr⟩ :=
        createSubtasksLoop_spec cfg parent pid tid user rest
          (updateIssue
            { t with
                issues := t.issues ++ [(genKey t.nextId,
                  { status := "Open", assignee := none, worklogAuthors := [],
                    subtaskKeys := [], projectId := pid, summary := s })],
                nextId := t.nextId + 1 }
            (genKey t.nextId) (fun g => { g with assignee := some user })) hfa
      refine ⟨t2, ⟨some (genKey t.nextId), s, "success", "Created and assigned to " ++ user⟩ :: rs,
        ?_, ?_, ?_⟩
      · simp only [createSubtasksLoop, hone]
        rw [hloop]
        simp [List.countP_cons]
      · simp only [List.map_cons, hmap]
        simp [hfc]
        intro a _
        rfl
      · intro r hr hrerr
        rcases List.mem_cons.mp hr with rfl | hr2
        · simp at hrerr
        · exact herr r hr2 hrerr

/-- C8: with a resolvable sub-task issue type and project, the creation
workflow attempts all 7 templates; when exactly the 2nd template's creation
raises a provider error with message `m`, the summary reports
`total=7, created=6, failed=1` and exactly one entry is an `error` entry —
the one carrying message `m` for `"Peer Code Review"`. -/
theorem claim_C8 (t : Tracker) (cfg : CreatorConfig) (storyKey tid pid : String) (m : Err)
    (htid : getSubtaskIssueTypeId t = some tid)
    (hpid : getProject t storyKey = .ok pid)
    (hfa : t.failAssign = [])
    (hfc : t.failCreate = [("Peer Code Review", m)]) :
    ∃ t' res, createSubtasks t cfg storyKey = (t', .ok res) ∧
      res.total = 7 ∧ res.createdCount = 6 ∧ res.failed = 1 ∧
      res.created.length = 7 ∧
      res.created.countP (fun r => r.status == "error") = 1 ∧
      ∀ r ∈ res.created, r.status = "error" →
        r = ⟨none, "Peer Code Review", "error", m⟩ := by
  obtain ⟨t2, rs, hloop, hmap, herr⟩ :=
    createSubtasksLoop_spec cfg storyKey pid tid (getCurrentUser t) SUBTASK_TEMPLATES t hfa
  have hcount : rs.countP (fun r => r.status == "error") = 1 := by
    have h1 : rs.countP (fun r => r.status == "error") =
        (rs.map (fun r => (r.summary, r.status))).countP (fun p => p.2 == "error") := by
      rw [List.countP_map]
      rfl
    rw [h1, hmap, hfc]
    simp [SUBTASK_TEMPLATES, List.lookup_cons, List.countP_cons]
  have hlen : rs.length = 7 := by
    have hml := congrArg List.length hmap
    simpa [SUBTASK_TEMPLATES] using hml
  refine ⟨t2, ⟨rs, 7, 6, 1⟩, ?_, rfl, rfl, rfl, hlen, hcount, ?_⟩
  · simp only [createSubtasks, htid, hpid]
    rw [hloop, hcount]
    rfl
  · intro r hr hrerr
    obtain ⟨e, he, hre⟩ := herr r hr hrerr
    rw [hfc] at he
    cases hbe : r.summary == "Peer Code Review" with
    | false =>
      rw [List.lookup_cons, hbe] at he
      simp at he
    | true =>
      have hsum : r.summary = "Peer Code Review" := eq_of_beq hbe
      rw [List.lookup_cons, hbe] at he
      rw [hre, hsum, ← Option.some.inj he]

/-- One creation attempt never removes existing issues. -/
theorem createSingleSubtask_isSome_mono (t : Tracker) (cfg : CreatorConfig)
    (parent s pid tid user k : String)
    (h : (t.issues.lookup k).isSome = true) :
    (((createSingleSubtask t cfg parent s pid tid user).1).issues.lookup k).isSome = true := by
  cases hlk : t.issues.lookup k with
  | none => rw [hlk] at h; exact Bool.noConfusion h
  | some v =>
    cases hfc : t.failCreate.lookup s with
    | some e =>
      simp only [createSingleSubtask, createSubtask, hfc]
      exact h
    | none =>
      have happ : List.lookup k (t.issues ++ [(genKey t.nextId,
          ({ status := "Open", assignee := none, worklogAuthors := [],
             subtaskKeys := [], projectId := pid, summary := s } : IssueFields))]) = some v :=
        lookup_append_of_some hlk _
      cases hfa2 : t.failAssign.lookup (genKey t.nextId) with
      | some e =>
        simp only [createSingleSubtask, createSubtask, assignIssue, hfc, hfa2]
        rw [happ]
        rfl
      | none =>
        simp only [createSingleSubtask, createSubtask, assignIssue, hfc, hfa2]
        rw [updateIssue_lookup_isSome]
        rw [happ]
        rfl

/-- The whole creation loop never removes existing issues. -/
theorem createSubtasksLoop_isSome_mono (cfg : CreatorConfig) (parent pid tid user : String) :
    ∀ (templates : List String) (t : Tracker) (k : String),
      (t.issues.lookup k).isSome = true →
      (((createSubtasksLoop cfg parent pid tid user t templates).1).issues.lookup k).isSome
        = true
  | [], t, k => fun h => h
  | s :: rest, t, k => by
    intro h
    have h1 := createSingleSubtask_isSome_mono t cfg parent s pid tid user k h
    rcases hone : createSingleSubtask t cfg parent s pid tid user with ⟨t1, r⟩
    rw [hone] at h1
    have h2 := createSubtasksLoop_isSome_mono cfg parent pid tid user rest t1 k h1
    cases r with
    | error e =>
      simp only [createSubtasksLoop, hone]
      rcases hrest : createSubtasksLoop cfg parent pid tid user t1 rest with ⟨t2, rs, f⟩
      rw [hrest] at h2
      exact h2
    | ok cr =>
      simp only [createSubtasksLoop, hone]
      rcases hrest : createSubtasksLoop cfg parent pid tid user t1 rest with ⟨t2, rs, f⟩
      rw [hrest] at h2
      exact h2

/-! ## Concrete test fixtures (used by witnesses and counterexamples) -/

/-- Fixture issue record. -/
def mkFields (st : String) (a : Option String) (wl : List String)
    (sub : List String) : IssueFields :=
  { status := st, assignee := a, worklogAuthors := wl, subtaskKeys := sub,
    projectId := "10000", summary := "fixture" }

/-- Fixture tracker: one parent story with three sub-tasks, the ordinary
transition graph, no injected provider errors, caller `alice`. -/
def sampleTracker : Tracker :=
  { issues := [("STORY-1", mkFields "Open" (some "alice") [] ["ST-1", "ST-2", "ST-3"]),
               ("ST-1", mkFields "Open" (some "alice") [] []),
               ("ST-2", mkFields "Completed" (some "alice") [] []),
               ("ST-3", mkFields "Open" (some "bob") [] [])],
    offered := [("Open", "In Progress."), ("In Progress.", "Completed")],
    failExec := [], failWorklogList := [], failWorklogAdd := [],
    failCreate := [], failAssign := [],
    issueTypes := [{ name := "Sub-task", id := "5" }],
    currentUsername := "alice", nextId := 0 }

/-- Fixture tracker offering no transitions at all: every transition
attempt returns `false`. -/
def sampleTrackerBare : Tracker := { sampleTracker with offered := [] }

/-- Fixture tracker with a single sub-task assigned to someone else. -/
def miniTracker : Tracker :=
  { issues := [("S", mkFields "Open" none [] ["ST-3"]),
               ("ST-3", mkFields "Open" (some "bob") [] [])],
    offered := [("Open", "In Progress."), ("In Progress.", "Completed")],
    failExec := [], failWorklogList := [], failWorklogAdd := [],
    failCreate := [], failAssign := [],
    issueTypes := [{ name := "Sub-task", id := "5" }],
    currentUsername := "alice", nextId := 0 }

/-- The batch result produced on `miniTracker`. -/
def miniBatch : BatchResult :=
  ⟨[⟨"ST-3", "Open", [], "skipped", "Not assigned to me (assignee=bob)", some "bob"⟩], 1, 0, 1⟩

/-- Fixture tracker where adding a worklog on `ST-1` raises `boom`. -/
def sampleTrackerWlFail : Tracker :=
  { sampleTracker with failWorklogAdd := [("ST-1", "boom")] }

/-- Fixture creator configuration. -/
def sampleCfg : CreatorConfig := ⟨"customfield_10111", "Component", "2h"⟩

/-- Fixture tracker where creating `Peer Code Review` raises `nope`. -/
def sampleTrackerCreateFail : Tracker :=
  { sampleTracker with failCreate := [("Peer Code Review", "nope")] }

/-- Fixture tracker where assigning the first created sub-task raises. -/
def sampleTrackerAssignFail : Tracker :=
  { sampleTracker with failAssign := [("SUB-0", "assign denied")] }

/-! ## Claims -/

/-- C1: a sub-task assigned to the caller, observed in `Open`, for which the
`In Progress.` transition is offered and executes, no worklog by the caller
exists (and listing/adding worklogs succeeds), and the `Completed`
transition is offered and executes, yields actions exactly
`["Moved to In Progress", "Logged 2h work", "Moved to Completed"]` and
outcome `success`. -/
theorem claim_C1 (t : Tracker) (issue : Issue) (user : String) (fi : IssueFields)
    (_hassigned : shouldProcessSubtask issue user = true)
    (hl : t.issues.lookup issue.key = some fi)
    (hs : issue.status = "Open") (hfs : fi.status = "Open")
    (hip : ("Open", "In Progress.") ∈ t.offered)
    (hfe1 : t.failExec.lookup (issue.key, "In Progress.") = none)
    (hwll : t.failWorklogList.lookup issue.key = none)
    (hnw : fi.worklogAuthors.any (fun a => a == user) = false)
    (hwla : t.failWorklogAdd.lookup issue.key = none)
    (hcp : ("In Progress.", "Completed") ∈ t.offered)
    (hfe2 : t.failExec.lookup (issue.key, "Completed") = none) :
    (processSingleSubtask t issue user).2.actions =
        ["Moved to In Progress", "Logged 2h work", "Moved to Completed"] ∧
    (processSingleSubtask t issue user).2.status = "success" := by
  have h1 : transitionIssue t issue "In Progress." =
      (updateIssue t issue.key (fun g => { g with status := "In Progress." }), .ok true) := by
    simp [transitionIssue, hl, hfs, hip, hfe1]
  set t1 := updateIssue t issue.key (fun g => { g with status := "In Progress." }) with ht1
  have h2 : getIssue t1 issue.key = .ok ⟨issue.key, "In Progress.", fi.assignee⟩ := by
    simp [getIssue, ht1, updateIssue_lookup_self, hl]
  have h3 : hasWorklogByUser t1 ⟨issue.key, "In Progress.", fi.assignee⟩ user = .ok false := by
    simp [hasWorklogByUser, getWorklogs, ht1, updateIssue_failWorklogList, hwll,
      updateIssue_lookup_self, hl, hnw]
  have h4 : addWorklog t1 ⟨issue.key, "In Progress.", fi.assignee⟩ "2h" =
      (updateIssue t1 issue.key
        (fun g => { g with worklogAuthors := g.worklogAuthors ++ [t1.currentUsername] }),
       .ok true) := by
    simp [addWorklog, ht1, updateIssue_failWorklogAdd, hwla, updateIssue_lookup_self, hl]
  set t2 := updateIssue t1 issue.key
    (fun g => { g with worklogAuthors := g.worklogAuthors ++ [t1.currentUsername] }) with ht2
  have h5 : transitionIssue t2 ⟨issue.key, "In Progress.", fi.assignee⟩ "Completed" =
      (updateIssue t2 issue.key (fun g => { g with status := "Completed" }), .ok true) := by
    simp [transitionIssue, ht2, ht1, updateIssue_lookup_self, hl,
      updateIssue_offered, updateIssue_failExec, hcp, hfe2]
  simp [processSingleSubtask, hs, h1, h2, worklogAndCompleteStep, h3, h4, completeStep, h5,
    successResult]

/-- C2: a sub-task with no assignee, or assigned to someone other than the
caller, is recorded as `skipped` with message
`"Not assigned to me (assignee=<name-or-None>)"` and an empty action list,
and the rest of the batch continues on the unchanged tracker (no remote
mutation for that sub-task). -/
theorem claim_C2 (t : Tracker) (user k : String) (ks : List String) (issue : Issue)
    (hget : getIssue t k = .ok issue)
    (hnot : shouldProcessSubtask issue user = false) :
    (∀ t2 e, processSubtasksLoop user t ks = (t2, .error e) →
        processSubtasksLoop user t (k :: ks) = (t2, .error e)) ∧
    (∀ t2 rs p s, processSubtasksLoop user t ks = (t2, .ok (rs, p, s)) →
        processSubtasksLoop user t (k :: ks) =
          (t2, .ok (⟨issue.key, issue.status, [], "skipped",
             "Not assigned to me (assignee=" ++ fmtAssignee issue.assignee ++ ")",
             issue.assignee⟩ :: rs, p, s + 1))) := by
  constructor
  · intro t2 e hrest
    simp [processSubtasksLoop, hget, hnot, hrest]
  · intro t2 rs p s hrest
    simp [processSubtasksLoop, hget, hnot, hrest, notAssignedResult]

/-- C3: an assigned sub-task observed in `Completed` yields `skipped` /
`"Already Completed"` with no actions and no mutation; consequently a second
run over a sub-task that reached `Completed` on the first run yields
`skipped` / `"Already Completed"`. -/
theorem claim_C3 :
    (∀ (t : Tracker) (issue : Issue) (user : String),
        shouldProcessSubtask issue user = true →
        issue.status = "Completed" →
        processSingleSubtask t issue user =
          (t, ⟨issue.key, "Completed", [], "skipped", "Already Completed", issue.assignee⟩)) ∧
    (∀ (t : Tracker) (issue issue2 : Issue) (user : String),
        shouldProcessSubtask issue2 user = true →
        statusOf (processSingleSubtask t issue user).1 issue.key = some "Completed" →
        getIssue (processSingleSubtask t issue user).1 issue.key = .ok issue2 →
        processSingleSubtask (processSingleSubtask t issue user).1 issue2 user =
          ((processSingleSubtask t issue user).1,
           ⟨issue2.key, "Completed", [], "skipped", "Already Completed", issue2.assignee⟩)) := by
  constructor
  · intro t issue user _ hstatus
    exact processSingleSubtask_completed t issue user hstatus
  · intro t issue issue2 user _ hst hget
    cases hlook : (processSingleSubtask t issue user).1.issues.lookup issue.key with
    | none => simp [getIssue, hlook] at hget
    | some f =>
      have hfst : f.status = "Completed" := by
        simpa [statusOf, hlook] using hst
      have hiss : issue2.status = "Completed" := by
        simp [getIssue, hlook] at hget
        rw [← hget, hfst]
      exact processSingleSubtask_completed _ issue2 user hiss

/-- Witness for C1: the fixture's `ST-1` takes the full happy path. -/
theorem claim_C1_witness :
    (processSingleSubtask sampleTracker ⟨"ST-1", "Open", some "alice"⟩ "alice").2.actions =
        ["Moved to In Progress", "Logged 2h work", "Moved to Completed"] ∧
    (processSingleSubtask sampleTracker ⟨"ST-1", "Open", some "alice"⟩ "alice").2.status =
        "success" :=
  claim_C1 sampleTracker ⟨"ST-1", "Open", some "alice"⟩ "alice"
    (mkFields "Open" (some "alice") [] []) rfl rfl rfl rfl (by decide) rfl rfl rfl rfl
    (by decide) rfl

/-- Witness for C2: the fixture's `ST-3` is assigned to `bob`, not the
caller `alice`. -/
theorem claim_C2_witness :
    (∀ t2 e, processSubtasksLoop "alice" sampleTracker [] = (t2, Except.error e) →
        processSubtasksLoop "alice" sampleTracker ["ST-3"] = (t2, Except.error e)) ∧
    (∀ t2 rs p s, processSubtasksLoop "alice" sampleTracker [] = (t2, Except.ok (rs, p, s)) →
        processSubtasksLoop "alice" sampleTracker ["ST-3"] =
          (t2, Except.ok (⟨"ST-3", "Open", [], "skipped",
             "Not assigned to me (assignee=" ++ fmtAssignee (some "bob") ++ ")",
             some "bob"⟩ :: rs, p, s + 1))) :=
  claim_C2 sampleTracker "alice" "ST-3" [] ⟨"ST-3", "Open", some "bob"⟩ rfl rfl

/-- Witness for C3: `ST-2` is already `Completed`; and running `ST-1` to
`Completed` and then processing it again yields `Already Completed`. -/
theorem claim_C3_witness :
    (processSingleSubtask sampleTracker ⟨"ST-2", "Completed", some "alice"⟩ "alice" =
      (sampleTracker, ⟨"ST-2", "Completed", [], "skipped", "Already Completed", some "alice"⟩)) ∧
    (processSingleSubtask
        (processSingleSubtask sampleTracker ⟨"ST-1", "Open", some "alice"⟩ "alice").1
        ⟨"ST-1", "Completed", some "alice"⟩ "alice" =
      ((processSingleSubtask sampleTracker ⟨"ST-1", "Open", some "alice"⟩ "alice").1,
       ⟨"ST-1", "Completed", [], "skipped", "Already Completed", some "alice"⟩)) :=
  ⟨claim_C3.1 sampleTracker ⟨"ST-2", "Completed", some "alice"⟩ "alice" rfl rfl,
   claim_C3.2 sampleTracker ⟨"ST-1", "Open", some "alice"⟩ ⟨"ST-1", "Completed", some "alice"⟩
     "alice" rfl (by decide) rfl⟩

/-- Counterexample to C4 as stated: the assigned sub-task `ST-2` is
processed without any exception (its outcome is not `error`), yet its
outcome is `skipped` (the `Already Completed` short-circuit), not
`success`. -/
theorem claim_C4_counterexample :
    shouldProcessSubtask ⟨"ST-2", "Completed", some "alice"⟩ "alice" = true ∧
    (processSingleSubtask sampleTracker ⟨"ST-2", "Completed", some "alice"⟩ "alice").2.status
      ≠ "error" ∧
    ¬((processSingleSubtask sampleTracker ⟨"ST-2", "Completed", some "alice"⟩ "alice").2.status
        = "success" ∧
      (processSingleSubtask sampleTracker ⟨"ST-2", "Completed", some "alice"⟩ "alice").2.message
        = "Processed successfully") := by decide

/-- C4 (amended): for an assigned sub-task *not observed in `Completed`*,
any exception-free path yields outcome `success` with message
`"Processed successfully"` — including an `Open` sub-task whose
In-Progress transition is not offered (tracker unchanged, empty actions)
and a sub-task in an unrecognized status (tracker unchanged, no
actions). -/
theorem claim_C4 (t : Tracker) (issue : Issue) (user : String)
    (_hassigned : shouldProcessSubtask issue user = true)
    (hnc : issue.status ≠ "Completed") :
    ((processSingleSubtask t issue user).2.status ≠ "error" →
      (processSingleSubtask t issue user).2.status = "success" ∧
      (processSingleSubtask t issue user).2.message = "Processed successfully") ∧
    (∀ t1, issue.status = "Open" → transitionIssue t issue "In Progress." = (t1, .ok false) →
      processSingleSubtask t issue user = (t, successResult issue.key "Open" [] issue.assignee)) ∧
    (statusRank issue.status = none →
      processSingleSubtask t issue user =
        (t, successResult issue.key issue.status [] issue.assignee)) := by
  refine ⟨?_, ?_, ?_⟩
  · intro hne
    rcases processSingleSubtask_result_shape t issue user with
      ⟨h1, h2⟩ | ⟨h1, h2, h3, h4⟩ | ⟨h1, -, -⟩
    · exact ⟨h1, h2⟩
    · exact absurd h4 hnc
    · exact absurd h1 hne
  · intro t1 hopen htr
    rcases transitionIssue_cases t issue "In Progress." with ⟨e, he⟩ | hf | ⟨f, hl, ht⟩
    · rw [htr] at he
      simp only [Prod.mk.injEq] at he
      exact Except.noConfusion he.2
    · simp [processSingleSubtask, hopen, hf, worklogAndCompleteStep, successResult]
    · rw [htr] at ht
      simp only [Prod.mk.injEq, Except.ok.injEq] at ht
      exact Bool.noConfusion ht.2
  · intro hrank
    have h1 : issue.status ≠ "Open" := fun h => by simp [statusRank, h] at hrank
    have h2 : issue.status ≠ "In Progress." := fun h => by simp [statusRank, h] at hrank
    have h3 : issue.status ≠ "Completed" := fun h => by simp [statusRank, h] at hrank
    have hb1 : (issue.status == "Open") = false := by simp [h1]
    have hb2 : (issue.status == "In Progress.") = false := by simp [h2]
    have hb3 : (issue.status == "Completed") = false := by simp [h3]
    simp [processSingleSubtask, worklogAndCompleteStep, hb1, hb2, hb3]

/-- Witness for C4 (amended): on the transition-less tracker, the `Open`
sub-task ends with outcome `success` although nothing was done. -/
theorem claim_C4_witness :
    (processSingleSubtask sampleTrackerBare ⟨"ST-1", "Open", some "alice"⟩ "alice").2.status
        = "success" ∧
    (processSingleSubtask sampleTrackerBare ⟨"ST-1", "Open", some "alice"⟩ "alice").2.message
        = "Processed successfully" :=
  (claim_C4 sampleTrackerBare ⟨"ST-1", "Open", some "alice"⟩ "alice" rfl
    (by decide)).1 (by decide)

/-- Counterexample to C9 as stated: the fixture's `ST-1` is first observed
in `Open`, but after the full happy path the per-item `current_status`
field records the refreshed status `"In Progress."`, not the prior
status. -/
theorem claim_C9_counterexample :
    (processSingleSubtask sampleTracker ⟨"ST-1", "Open", some "alice"⟩ "alice").2.current_status
        = "In Progress." ∧
    (processSingleSubtask sampleTracker ⟨"ST-1", "Open", some "alice"⟩ "alice").2.current_status
        ≠ "Open" := by decide

/-- C9 (amended): the per-item `current_status` field records the status
last observed before building the result: the first-observed status in
every path except a successful Open→In-Progress. transition, after which it
records the refreshed status `"In Progress."`; it is never updated again
after the `Completed` transition. -/
theorem claim_C9 (t : Tracker) (issue : Issue) (user : String) :
    (issue.status ≠ "Open" →
      (processSingleSubtask t issue user).2.current_status = issue.status) ∧
    (∀ t1, issue.status = "Open" → transitionIssue t issue "In Progress." = (t1, .ok false) →
      (processSingleSubtask t issue user).2.current_status = issue.status) ∧
    (∀ t1 e, issue.status = "Open" → transitionIssue t issue "In Progress." = (t1, .error e) →
      (processSingleSubtask t issue user).2.current_status = issue.status) ∧
    (∀ t1, issue.status = "Open" → transitionIssue t issue "In Progress." = (t1, .ok true) →
      (processSingleSubtask t issue user).2.current_status = "In Progress.") := by
  refine ⟨?_, ?_, ?_, ?_⟩
  · intro hopen
    have hb : (issue.status == "Open") = false := by simp [hopen]
    simp [processSingleSubtask, hb, worklogAndCompleteStep_current_status]
  · intro t1 hopen htr
    rcases transitionIssue_cases t issue "In Progress." with ⟨e, he⟩ | hf | ⟨f, hl, ht⟩
    · rw [htr] at he
      simp only [Prod.mk.injEq] at he
      exact Except.noConfusion he.2
    · simp [processSingleSubtask, hopen, hf, worklogAndCompleteStep_current_status]
    · rw [htr] at ht
      simp only [Prod.mk.injEq, Except.ok.injEq] at ht
      exact Bool.noConfusion ht.2
  · intro t1 e hopen htr
    rcases transitionIssue_cases t issue "In Progress." with ⟨e2, he⟩ | hf | ⟨f, hl, ht⟩
    · simp [processSingleSubtask, hopen, he, errorResult]
    · rw [htr] at hf
      simp only [Prod.mk.injEq] at hf
      exact Except.noConfusion hf.2
    · rw [htr] at ht
      simp only [Prod.mk.injEq] at ht
      exact Except.noConfusion ht.2
  · intro t1 hopen htr
    rcases transitionIssue_cases t issue "In Progress." with ⟨e, he⟩ | hf | ⟨f, hl, ht⟩
    · rw [htr] at he
      simp only [Prod.mk.injEq] at he
      exact Except.noConfusion he.2
    · rw [htr] at hf
      simp only [Prod.mk.injEq, Except.ok.injEq] at hf
      exact Bool.noConfusion hf.2
    · have hget : getIssue (updateIssue t issue.key (fun g => { g with status := "In Progress." }))
          issue.key = .ok ⟨issue.key, "In Progress.", f.assignee⟩ := by
        simp [getIssue, updateIssue_lookup_self, hl]
      simp [processSingleSubtask, hopen, ht, hget, worklogAndCompleteStep_current_status]

/-- Witness for C9 (amended): after `ST-1`'s successful Open→In-Progress.
transition the recorded status is the refreshed `"In Progress."`. -/
theorem claim_C9_witness :
    (processSingleSubtask sampleTracker ⟨"ST-1", "Open", some "alice"⟩ "alice").2.current_status
        = "In Progress." :=
  (claim_C9 sampleTracker ⟨"ST-1", "Open", some "alice"⟩ "alice").2.2.2
    (updateIssue sampleTracker "ST-1" (fun g => { g with status := "In Progress." })) rfl rfl

/-- C6: in the batch summary, `total` is the number of sub-tasks of the
parent, `processed` counts exactly the `success` items, and `skipped`
counts every other item (both `skipped` and `error` outcomes). -/
theorem claim_C6 (t : Tracker) (storyKey : String) (t' : Tracker) (B : BatchResult)
    (keys : List String)
    (hsub : getSubtasks t storyKey = .ok keys)
    (h : processStorySubtasks t storyKey = (t', .ok B)) :
    B.total = keys.length ∧
    B.results.length = keys.length ∧
    B.processed = B.results.countP (fun r => r.status == "success") ∧
    B.skipped = B.results.countP (fun r => !(r.status == "success")) := by
  unfold processStorySubtasks at h
  rw [hsub] at h
  dsimp only at h
  rcases hloop : processSubtasksLoop (getCurrentUser t) t keys with ⟨t1, res⟩
  rw [hloop] at h
  cases res with
  | error e =>
    simp only [Prod.mk.injEq] at h
    exact Except.noConfusion h.2
  | ok triple =>
    obtain ⟨rs, p, s⟩ := triple
    simp only [Prod.mk.injEq, Except.ok.injEq] at h
    obtain ⟨-, rfl⟩ := h
    obtain ⟨l, c1, c2⟩ := processSubtasksLoop_counts (getCurrentUser t) keys t t1 rs p s hloop
    exact ⟨rfl, l, c1, c2⟩

/-- C5: a provider error raised while driving an assigned sub-task is
caught and converted to a per-item `error` outcome whose message is
`"Error: <provider message>"` and whose action list is one of the partial
traces recorded before the failure (never containing
`"Moved to Completed"`); and the loop still yields one result per sibling
sub-task — the batch is never aborted by a per-item provider error. -/
theorem claim_C5 :
    (∀ (user : String) (keys : List String) (t : Tracker),
      (∀ k ∈ keys, (t.issues.lookup k).isSome = true) →
      ∃ t' rs p s, processSubtasksLoop user t keys = (t', .ok (rs, p, s)) ∧
        rs.length = keys.length) ∧
    (∀ (t : Tracker) (issue : Issue) (user : String),
      (processSingleSubtask t issue user).2.status = "error" →
      (∃ m, (processSingleSubtask t issue user).2.message = "Error: " ++ m) ∧
      ((processSingleSubtask t issue user).2.actions = [] ∨
       (processSingleSubtask t issue user).2.actions = ["Moved to In Progress"] ∨
       (processSingleSubtask t issue user).2.actions = ["Logged 2h work"] ∨
       (processSingleSubtask t issue user).2.actions = ["Work already logged, skipped worklog"] ∨
       (processSingleSubtask t issue user).2.actions = ["Moved to In Progress", "Logged 2h work"] ∨
       (processSingleSubtask t issue user).2.actions =
         ["Moved to In Progress", "Work already logged, skipped worklog"])) := by
  constructor
  · intro user keys t hkeys
    exact processSubtasksLoop_completes user keys t hkeys
  · intro t issue user herr
    rcases processSingleSubtask_result_shape t issue user with
      ⟨h1, -⟩ | ⟨h1, -, -, -⟩ | ⟨-, h2, h3⟩
    · rw [h1] at herr
      exact absurd herr (by decide)
    · rw [h1] at herr
      exact absurd herr (by decide)
    · exact ⟨h2, h3⟩

/-- Witness for C5: on the worklog-failure fixture the batch still covers
all three sub-tasks, and `ST-1`'s result is the converted provider error
with the one action recorded before the raise. -/
theorem claim_C5_witness :
    (∃ t' rs p s,
      processSubtasksLoop "alice" sampleTrackerWlFail ["ST-1", "ST-2", "ST-3"] =
        (t', .ok (rs, p, s)) ∧
      rs.length = ["ST-1", "ST-2", "ST-3"].length) ∧
    ((∃ m, (processSingleSubtask sampleTrackerWlFail ⟨"ST-1", "Open", some "alice"⟩
        "alice").2.message = "Error: " ++ m) ∧
     ((processSingleSubtask sampleTrackerWlFail ⟨"ST-1", "Open", some "alice"⟩
          "alice").2.actions = [] ∨
      (processSingleSubtask sampleTrackerWlFail ⟨"ST-1", "Open", some "alice"⟩
          "alice").2.actions = ["Moved to In Progress"] ∨
      (processSingleSubtask sampleTrackerWlFail ⟨"ST-1", "Open", some "alice"⟩
          "alice").2.actions = ["Logged 2h work"] ∨
      (processSingleSubtask sampleTrackerWlFail ⟨"ST-1", "Open", some "alice"⟩
          "alice").2.actions = ["Work already logged, skipped worklog"] ∨
      (processSingleSubtask sampleTrackerWlFail ⟨"ST-1", "Open", some "alice"⟩
          "alice").2.actions = ["Moved to In Progress", "Logged 2h work"] ∨
      (processSingleSubtask sampleTrackerWlFail ⟨"ST-1", "Open", some "alice"⟩
          "alice").2.actions =
        ["Moved to In Progress", "Work already logged, skipped worklog"])) :=
  ⟨claim_C5.1 "alice" ["ST-1", "ST-2", "ST-3"] sampleTrackerWlFail (by decide),
   claim_C5.2 sampleTrackerWlFail ⟨"ST-1", "Open", some "alice"⟩ "alice" (by decide)⟩

/-- Witness for C7: on the fixture, `ST-1` goes from `Open` to `Completed`
across one batch run — strictly forward. -/
theorem claim_C7_witness :
    "Completed" = "Open" ∨
    ∃ i j, statusRank "Open" = some i ∧ statusRank "Completed" = some j ∧ i < j :=
  claim_C7 sampleTracker "STORY-1" "ST-1" "Open" "Completed" rfl rfl

/-- Witness for C6 on the single-sub-task fixture. -/
theorem claim_C6_witness :
    miniBatch.total = ["ST-3"].length ∧
    miniBatch.results.length = ["ST-3"].length ∧
    miniBatch.processed = miniBatch.results.countP (fun r => r.status == "success") ∧
    miniBatch.skipped = miniBatch.results.countP (fun r => !(r.status == "success")) :=
  claim_C6 miniTracker "S" miniTracker miniBatch ["ST-3"] rfl rfl

/-- Witness for C8: on the fixture where creating `Peer Code Review`
raises `nope`, the summary is `total=7, created=6, failed=1` with exactly
one error entry. -/
theorem claim_C8_witness :
    ∃ t' res, createSubtasks sampleTrackerCreateFail sampleCfg "STORY-1" = (t', .ok res) ∧
      res.total = 7 ∧ res.createdCount = 6 ∧ res.failed = 1 ∧
      res.created.length = 7 ∧
      res.created.countP (fun r => r.status == "error") = 1 ∧
      ∀ r ∈ res.created, r.status = "error" →
        r = ⟨none, "Peer Code Review", "error", "nope"⟩ :=
  claim_C8 sampleTrackerCreateFail sampleCfg "STORY-1" "5" "10000" "nope"
    (by decide) rfl rfl rfl

/-- C10: a sub-task is created by one remote call and only afterwards
assigned by a separate call.  If the assignment raises after the creation
succeeded, the per-item call reports the provider error, the loop records
an `error` entry with the exception's message and counts it in `failed`,
yet the created issue is already on the tracker and is never rolled back —
it persists through the whole loop. -/
theorem claim_C10 (t : Tracker) (cfg : CreatorConfig) (parent s pid tid user : String)
    (m : Err) (rest : List String)
    (hfc : t.failCreate.lookup s = none)
    (hfa : t.failAssign.lookup (genKey t.nextId) = some m)
    (hfresh : t.issues.lookup (genKey t.nextId) = none) :
    (createSingleSubtask t cfg parent s pid tid user =
      ({ t with
          issues := t.issues ++ [(genKey t.nextId,
            ({ status := "Open", assignee := none, worklogAuthors := [],
               subtaskKeys := [], projectId := pid, summary := s } : IssueFields))],
          nextId := t.nextId + 1 }, .error m)) ∧
    (((createSingleSubtask t cfg parent s pid tid user).1).issues.lookup (genKey t.nextId) =
      some ({ status := "Open", assignee := none, worklogAuthors := [],
              subtaskKeys := [], projectId := pid, summary := s } : IssueFields)) ∧
    (∀ t1, createSingleSubtask t cfg parent s pid tid user = (t1, .error m) →
      ∀ t2 rs f, createSubtasksLoop cfg parent pid tid user t1 rest = (t2, rs, f) →
        createSubtasksLoop cfg parent pid tid user t (s :: rest) =
          (t2, ⟨none, s, "error", m⟩ :: rs, f + 1)) ∧
    ((((createSubtasksLoop cfg parent pid tid user t (s :: rest)).1).issues.lookup
        (genKey t.nextId)).isSome = true) := by
  have hone : createSingleSubtask t cfg parent s pid tid user =
      ({ t with
          issues := t.issues ++ [(genKey t.nextId,
            ({ status := "Open", assignee := none, worklogAuthors := [],
               subtaskKeys := [], projectId := pid, summary := s } : IssueFields))],
          nextId := t.nextId + 1 }, .error m) := by
    simp [createSingleSubtask, createSubtask, assignIssue, hfc, hfa]
  have happ : List.lookup (genKey t.nextId) (t.issues ++ [(genKey t.nextId,
      ({ status := "Open", assignee := none, worklogAuthors := [],
         subtaskKeys := [], projectId := pid, summary := s } : IssueFields))]) =
      some ({ status := "Open", assignee := none, worklogAuthors := [],
              subtaskKeys := [], projectId := pid, summary := s } : IssueFields) := by
    rw [lookup_append_of_none hfresh]
    simp
  refine ⟨hone, ?_, ?_, ?_⟩
  · rw [hone]
    exact happ
  · intro t1 h1 t2 rs f h2
    simp only [createSubtasksLoop, h1, h2]
  · simp only [createSubtasksLoop, hone]
    have hiso : ((({ t with
        issues := t.issues ++ [(genKey t.nextId,
          ({ status := "Open", assignee := none, worklogAuthors := [],
             subtaskKeys := [], projectId := pid, summary := s } : IssueFields))],
        nextId := t.nextId + 1 } : Tracker)).issues.lookup (genKey t.nextId)).isSome = true := by
      rw [show ({ t with
          issues := t.issues ++ [(genKey t.nextId,
            ({ status := "Open", assignee := none, worklogAuthors := [],
               subtaskKeys := [], projectId := pid, summary := s } : IssueFields))],
          nextId := t.nextId + 1 } : Tracker).issues = t.issues ++ [(genKey t.nextId,
            ({ status := "Open", assignee := none, worklogAuthors := [],
               subtaskKeys := [], projectId := pid, summary := s } : IssueFields))] from rfl]
      rw [happ]
      rfl
    have hmono := createSubtasksLoop_isSome_mono cfg parent pid tid user rest
      ({ t with
          issues := t.issues ++ [(genKey t.nextId,
            ({ status := "Open", assignee := none, worklogAuthors := [],
               subtaskKeys := [], projectId := pid, summary := s } : IssueFields))],
          nextId := t.nextId + 1 }) (genKey t.nextId) hiso
    rcases hrest : createSubtasksLoop cfg parent pid tid user
        ({ t with
            issues := t.issues ++ [(genKey t.nextId,
              ({ status := "Open", assignee := none, worklogAuthors := [],
                 subtaskKeys := [], projectId := pid, summary := s } : IssueFields))],
            nextId := t.nextId + 1 }) rest with ⟨t2, rs, f⟩
    rw [hrest] at hmono
    exact hmono

/-- Witness for C10: on the assign-failure fixture the per-item call
reports the provider error while the created sub-task `SUB-0` is present on
the tracker. -/
theorem claim_C10_witness :
    ((createSingleSubtask sampleTrackerAssignFail sampleCfg "STORY-1"
        "Unit Test Case Execution" "10000" "5" "alice").1).issues.lookup
      (genKey sampleTrackerAssignFail.nextId) =
      some ({ status := "Open", assignee := none, worklogAuthors := [],
              subtaskKeys := [], projectId := "10000",
              summary := "Unit Test Case Execution" } : IssueFields) :=
  (claim_C10 sampleTrackerAssignFail sampleCfg "STORY-1" "Unit Test Case Execution"
    "10000" "5" "alice" "assign denied" [] rfl rfl rfl).2.1

end JiraAutomation
